import Mathlib

/-!
# Vibrator HAL (`src/vibrator/Vibrator.cpp`, `src/vibrator/Vibrator.h`)

A shallow embedding of the effect-dispatch engine of the vibrator service.

* `std::map` is a key-sorted association list (`mapFind`, `mapInsert`, `mapIndex`).
* The private helpers `setNode`, `setMode`, `setIndex`, `setLoop`, `setStrength`,
  `activate` and `msleep` are declared in `Vibrator.h` but their bodies are not part of the
  sources at hand.  A call to one of them is recorded in a trace; the status it returns is
  decided by a `Port`, a function of the whole history, so any pattern of failing register
  operations can be expressed.
* `CHECK_OK(x)` is the macro `if (!x.isOk()) return x`: the call `x` appears twice in the
  expansion, so a call that fails is made again and the second status is returned.
* `std::thread([=] { msleep(d); callback->onComplete(); }).detach()` is recorded as the trace
  event `Event.thread d callback`, at the position where the thread is created.
* `float` is IEEE-754 binary32, given by its three bit fields, with the IEEE comparisons.
-/

namespace Vibrator

/-! ## Enumerations -/

/-- The AIDL enum `Effect`, by its underlying `int32_t` value.  Values that name no
enumerator are kept: a caller can send them.  The enumerators below carry the values of the
AIDL interface `android.hardware.vibrator.Effect`; `std::map` orders its keys by them. -/
abbrev Effect := Int

/-- The AIDL enum `EffectStrength`, by its underlying value (`LIGHT` 0, `MEDIUM` 1,
`STRONG` 2 in `android.hardware.vibrator.EffectStrength`). -/
abbrev EffectStrength := Int

namespace Effect
abbrev CLICK : Effect := 0
abbrev DOUBLE_CLICK : Effect := 1
abbrev TICK : Effect := 2
abbrev THUD : Effect := 3
abbrev POP : Effect := 4
abbrev HEAVY_CLICK : Effect := 5
abbrev TEXTURE_TICK : Effect := 21
end Effect

namespace EffectStrength
abbrev LIGHT : EffectStrength := 0
abbrev MEDIUM : EffectStrength := 1
abbrev STRONG : EffectStrength := 2
end EffectStrength

/-- The values of `enum aw_haptic_work_mode` (`Vibrator.h`). -/
abbrev AW_STANDBY_MODE : Int := 0
abbrev AW_RAM_MODE : Int := 1
abbrev AW_RTP_MODE : Int := 2
abbrev AW_TRIG_MODE : Int := 3
abbrev AW_CONT_MODE : Int := 4
abbrev AW_RAM_LOOP_MODE : Int := 5

/-- Path of the activate node (`Vibrator.h`). -/
def kVibratorActivate : String := "/sys/class/leds/vibrator/activate"

/-! ## `ndk::ScopedAStatus` -/

/-- A binder status: `ok`, or an exception with its code. -/
inductive Status where
  | ok
  | exception (code : Int)
  deriving DecidableEq, Repr

/-- The test `x.isOk()`. -/
def Status.isOk : Status → Bool
  | .ok => true
  | .exception _ => false

abbrev EX_ILLEGAL_ARGUMENT : Int := -3
abbrev EX_UNSUPPORTED_OPERATION : Int := -7

/-! ## `std::map` -/

/-- The call `m.find(k)`; `none` stands for `m.end()`. -/
def mapFind {β : Type} : List (Int × β) → Int → Option β
  | [], _ => none
  | (k', v') :: rest, k => if k = k' then some v' else mapFind rest k

/-- Insertion of a pair into the key-ordered map; a key already present keeps its value. -/
def mapInsert {β : Type} : List (Int × β) → Int → β → List (Int × β)
  | [], k, v => [(k, v)]
  | (k', v') :: rest, k, v =>
    if k < k' then (k, v) :: (k', v') :: rest
    else if k = k' then (k', v') :: rest
    else (k', v') :: mapInsert rest k v

/-- The expression `m[k]`: the mapped value, and the map afterwards.  A missing key is
inserted with the value-initialised `dflt`. -/
def mapIndex {β : Type} (m : List (Int × β)) (k : Int) (dflt : β) : β × List (Int × β) :=
  match mapFind m k with
  | some v => (v, m)
  | none => (dflt, mapInsert m k dflt)

/-- Construction of a map from a braced initialiser list. -/
def mapOfList {β : Type} (init : List (Int × β)) : List (Int × β) :=
  init.foldl (fun m kv => mapInsert m kv.1 kv.2) []

/-- The keys met by `for (auto const& pair : m)`, in iteration order. -/
def mapKeys {β : Type} (m : List (Int × β)) : List Int :=
  m.map Prod.fst

/-- The table `vibEffects` of `Vibrator.h`: effect to (index, loop). -/
def vibEffects : List (Effect × (Int × Int)) :=
  mapOfList
    [ (Effect.CLICK, (3, 0)),
      (Effect.DOUBLE_CLICK, (3, 0)),
      (Effect.TICK, (2, 0)),
      (Effect.TEXTURE_TICK, (4, 15)),
      (Effect.HEAVY_CLICK, (5, 0)) ]

/-- The table `vibStrengths` of `Vibrator.h`: strength to gain. -/
def vibStrengths : List (EffectStrength × Int) :=
  mapOfList
    [ (EffectStrength.LIGHT, 64),
      (EffectStrength.MEDIUM, 96),
      (EffectStrength.STRONG, 128) ]

/-! ## Trace, port and state -/

/-- A call of one of the register helpers of the class. -/
inductive Op where
  | setNode (path : String) (value : Int)
  | setMode (mode : Int)
  | setIndex (index : Int)
  | setLoop (times : Int)
  | setStrength (strength : EffectStrength) (gain : Int)
  | activate (timeoutMs : Int)
  deriving DecidableEq, Repr

/-- What a command does that is visible outside it. -/
inductive Event where
  | op (o : Op)
  | msleep (msec : Int)
  | thread (delayMs : Int) (callback : Nat)
  deriving DecidableEq, Repr

/-- The register layer: the status of a helper call, given everything that happened before. -/
abbrev Port := List Event → Op → Status

/-- The two static tables and the trace so far. -/
structure State where
  vibEffects : List (Effect × (Int × Int))
  vibStrengths : List (EffectStrength × Int)
  trace : List Event
  deriving DecidableEq, Repr

/-- The state at process start. -/
def State.init : State :=
  { vibEffects := Vibrator.vibEffects, vibStrengths := Vibrator.vibStrengths, trace := [] }

/-- What a command hands back: its status, the value stored through `_aidl_return` (if the
command stored one) and the state afterwards. -/
structure Outcome where
  status : Status
  ret : Option Int
  state : State
  deriving DecidableEq, Repr

/-- One helper call: it is appended to the trace and the port decides its status. -/
def call (hw : Port) (s : State) (o : Op) : Status × State :=
  (hw s.trace o, { s with trace := s.trace ++ [Event.op o] })

/-- The macro `CHECK_OK(x)`: `if (!x.isOk()) return x`.  The macro pastes the expression `x`
twice, so the helper call `x` is evaluated once for the test and, when that call fails, a
second time for the value returned: the call is issued again and the status handed back is
that of the second call.  `x` is the helper call as a function of the state it runs in. -/
def CHECK_OK (x : State → Status × State) (s : State) (k : State → Outcome) : Outcome :=
  if (x s).1.isOk then k (x s).2
  else { status := (x (x s).2).1, ret := none, state := (x (x s).2).2 }

def setNode (hw : Port) (s : State) (path : String) (value : Int) : Status × State :=
  call hw s (Op.setNode path value)

def setMode (hw : Port) (s : State) (mode : Int) : Status × State :=
  call hw s (Op.setMode mode)

def setIndex (hw : Port) (s : State) (index : Int) : Status × State :=
  call hw s (Op.setIndex index)

def setLoop (hw : Port) (s : State) (times : Int) : Status × State :=
  call hw s (Op.setLoop times)

def activate (hw : Port) (s : State) (timeoutMs : Int) : Status × State :=
  call hw s (Op.activate timeoutMs)

/-- Modelled from the spec: the body of `Vibrator::setStrength` is not among the sources.
The spec has it program the gain register "from the strength's gain value", so the gain is
read from `vibStrengths`; the read is taken as `vibStrengths[strength]`, the one accessor
that can insert, so that nothing proved about the tables rests on the accessor chosen. -/
def setStrength (hw : Port) (s : State) (strength : EffectStrength) : Status × State :=
  let r := mapIndex s.vibStrengths strength 0
  call hw { s with vibStrengths := r.2 } (Op.setStrength strength r.1)

/-- The call `msleep(msec)` on the caller's thread. -/
def msleep (s : State) (msec : Int) : State :=
  { s with trace := s.trace ++ [Event.msleep msec] }

/-- The statement `if (callback != nullptr) std::thread([=] { msleep(delayMs); ... }).detach()`. -/
def spawn (s : State) (delayMs : Int) (callback : Option Nat) : State :=
  match callback with
  | some cb => { s with trace := s.trace ++ [Event.thread delayMs cb] }
  | none => s

/-! ## Commands -/

/-- The method `Vibrator::off`. -/
def off (hw : Port) (s : State) : Outcome :=
  let x := setNode hw s kVibratorActivate 0
  { status := x.1, ret := none, state := x.2 }

/-- The method `Vibrator::on` (the bare word is reserved in Lean). -/
def on_ (hw : Port) (s : State) (timeoutMs : Int) (callback : Option Nat) : Outcome :=
  CHECK_OK (fun s => setMode hw s AW_CONT_MODE) s fun s =>
  CHECK_OK (fun s => activate hw s timeoutMs) s fun s =>
  let s := spawn s timeoutMs callback
  { status := Status.ok, ret := none, state := s }

/-- The method `Vibrator::perform`. -/
def perform (hw : Port) (s : State) (effect : Effect) (strength : EffectStrength)
    (callback : Option Nat) : Outcome :=
  let timeout : Int := 12
  if mapFind s.vibEffects effect = none then
    { status := Status.exception EX_UNSUPPORTED_OPERATION, ret := none, state := s }
  else if mapFind s.vibStrengths strength = none then
    { status := Status.exception EX_UNSUPPORTED_OPERATION, ret := none, state := s }
  else
  CHECK_OK (fun s => setStrength hw s strength) s fun s =>
  let timeout : Int := if effect = Effect.DOUBLE_CLICK then 120 else timeout
  let r := mapIndex s.vibEffects effect (0, 0)
  let effectPair := r.1
  let s := { s with vibEffects := r.2 }
  let index := effectPair.1
  let loop := effectPair.2
  let mode := if loop ≠ 0 then AW_RAM_LOOP_MODE else AW_RAM_MODE
  CHECK_OK (fun s => setMode hw s mode) s fun s =>
  CHECK_OK (fun s => setIndex hw s index) s fun s =>
  CHECK_OK (fun s => setLoop hw s loop) s fun s =>
  CHECK_OK (fun s => activate hw s 1) s fun s =>
  let s := spawn s (timeout + 10) callback
  if effect = Effect.DOUBLE_CLICK then
    let s := msleep s timeout
    CHECK_OK (fun s => activate hw s 1) s fun s =>
    { status := Status.ok, ret := some timeout, state := s }
  else
    { status := Status.ok, ret := some timeout, state := s }

/-- The method `Vibrator::getSupportedEffects`; `out` is the vector behind `_aidl_return` on entry. -/
def getSupportedEffects (s : State) (out : List Effect) : Status × List Effect :=
  (Status.ok, (mapKeys s.vibEffects).foldl (fun acc k => acc ++ [k]) out)

/-! ## `float` -/

/-- An IEEE-754 binary32 value by its fields: sign bit, biased exponent, fraction. -/
structure F32 where
  sign : Bool
  exponent : Fin 256
  mantissa : Fin 8388608
  deriving DecidableEq, Repr

namespace F32

/-- A NaN has all exponent bits set and a non-zero fraction. -/
def isNaN (x : F32) : Bool :=
  decide (x.exponent.val = 255) && decide (x.mantissa.val ≠ 0)

/-- The magnitude of the bit pattern, without the sign. -/
def mag (x : F32) : Nat :=
  x.exponent.val * 8388608 + x.mantissa.val

/-- The sign-magnitude reading of the bit pattern.  On values that are not NaN it is strictly
monotone in the number denoted, and the two zeros share the key `0`. -/
def key (x : F32) : Int :=
  if x.sign then -((x.exponent.val : Int) * 8388608 + x.mantissa.val)
  else (x.exponent.val : Int) * 8388608 + x.mantissa.val

/-- The comparison `a < b` on floats: false as soon as one side is a NaN. -/
def lt (a b : F32) : Bool :=
  !a.isNaN && !b.isNaN && decide (a.key < b.key)

/-- The comparison `a <= b` on floats. -/
def le (a b : F32) : Bool :=
  !a.isNaN && !b.isNaN && decide (a.key ≤ b.key)

/-- The comparison `a > b` on floats. -/
def gt (a b : F32) : Bool :=
  lt b a

/-- The magnitude of a finite value as a multiple of `2 ^ (-149)`: the fraction itself for a
subnormal (exponent field 0), and `(2 ^ 23 + fraction) * 2 ^ (exponent - 1)` otherwise. -/
def scaled (x : F32) : Nat :=
  if x.exponent.val = 0 then x.mantissa.val
  else (8388608 + x.mantissa.val) * 2 ^ (x.exponent.val - 1)

/-- The rational denoted by a finite value (exponent field below 255). -/
def toRat (x : F32) : ℚ :=
  (if x.sign then -1 else 1) * ((x.scaled : ℚ) / 2 ^ 149)

/-- The literal `0.0f`. -/
def zero : F32 := { sign := false, exponent := 0, mantissa := 0 }
/-- The literal `0.33f`, bits `0x3EA8F5C3`. -/
def c033 : F32 := { sign := false, exponent := 125, mantissa := 2684355 }
/-- The literal `0.66f`, bits `0x3F28F5C3`. -/
def c066 : F32 := { sign := false, exponent := 126, mantissa := 2684355 }
/-- The literal `1.0f`, bits `0x3F800000`. -/
def one : F32 := { sign := false, exponent := 127, mantissa := 0 }
/-- The float nearest to `0.34`, bits `0x3EAE147B`. -/
def c034 : F32 := { sign := false, exponent := 125, mantissa := 3019899 }
/-- The float nearest to `1.01`, bits `0x3F8147AE`. -/
def c101 : F32 := { sign := false, exponent := 127, mantissa := 83886 }
/-- A quiet NaN, bits `0x7FC00000`. -/
def qNaN : F32 := { sign := false, exponent := 255, mantissa := 4194304 }

end F32

/-- The method `Vibrator::setAmplitude`. -/
def setAmplitude (hw : Port) (s : State) (amplitude : F32) : Outcome :=
  let strength : Option EffectStrength :=
    if F32.gt amplitude F32.zero && F32.le amplitude F32.c033 then
      some EffectStrength.LIGHT
    else if F32.gt amplitude F32.c033 && F32.le amplitude F32.c066 then
      some EffectStrength.MEDIUM
    else if F32.gt amplitude F32.c066 && F32.le amplitude F32.one then
      some EffectStrength.STRONG
    else none
  match strength with
  | none => { status := Status.exception EX_ILLEGAL_ARGUMENT, ret := none, state := s }
  | some strength =>
    CHECK_OK (fun s => setStrength hw s strength) s fun s =>
    { status := Status.ok, ret := none, state := s }

/-- The constant `caps`: `CAP_ON_CALLBACK | CAP_PERFORM_CALLBACK | CAP_AMPLITUDE_CONTROL`,
the AIDL bits `1 << 0`, `1 << 1` and `1 << 2`. -/
def caps : Int := 7

/-- The method `Vibrator::getCapabilities`. -/
def getCapabilities (s : State) : Outcome :=
  { status := Status.ok, ret := some caps, state := s }

/-- The methods whose whole body is `return fromExceptionCode(EX_UNSUPPORTED_OPERATION)`. -/
inductive Extended where
  | setExternalControl
  | getCompositionDelayMax
  | getCompositionSizeMax
  | getSupportedPrimitives
  | getPrimitiveDuration
  | compose
  | getSupportedAlwaysOnEffects
  | alwaysOnEnable
  | alwaysOnDisable
  | getResonantFrequency
  | getQFactor
  | getFrequencyResolution
  | getFrequencyMinimum
  | getBandwidthAmplitudeMap
  | getPwlePrimitiveDurationMax
  | getPwleCompositionSizeMax
  | getSupportedBraking
  | composePwle
  deriving DecidableEq, Repr

/-- Any of the extended methods; their arguments are unused. -/
def extended (s : State) (_m : Extended) : Outcome :=
  { status := Status.exception EX_UNSUPPORTED_OPERATION, ret := none, state := s }

/-- A call of a public method of the service, with its arguments. -/
inductive Command where
  | getCapabilities
  | off
  | on_ (timeoutMs : Int) (callback : Option Nat)
  | perform (effect : Effect) (strength : EffectStrength) (callback : Option Nat)
  | getSupportedEffects (out : List Effect)
  | setAmplitude (amplitude : F32)
  | extended (m : Extended)

/-- The state after a command. -/
def exec (hw : Port) (s : State) : Command → State
  | Command.getCapabilities => (getCapabilities s).state
  | Command.off => (off hw s).state
  | Command.on_ timeoutMs callback => (on_ hw s timeoutMs callback).state
  | Command.perform effect strength callback => (perform hw s effect strength callback).state
  | Command.getSupportedEffects _ => s
  | Command.setAmplitude amplitude => (setAmplitude hw s amplitude).state
  | Command.extended m => (extended s m).state

/-! ## The success-case sequences -/

/-- The events of `on(timeoutMs, callback)` when no helper fails. -/
def onSeq (timeoutMs : Int) (callback : Option Nat) : List Event :=
  [Event.op (Op.setMode AW_CONT_MODE), Event.op (Op.activate timeoutMs)] ++
    (match callback with
     | some cb => [Event.thread timeoutMs cb]
     | none => [])

/-- The register programming of `perform` for a descriptor `(index, loop)` and a strength
with gain `gain`: the five helper calls up to the first activation. -/
def programSeq (strength : EffectStrength) (gain index loop : Int) : List Event :=
  [Event.op (Op.setStrength strength gain),
   Event.op (Op.setMode (if loop ≠ 0 then AW_RAM_LOOP_MODE else AW_RAM_MODE)),
   Event.op (Op.setIndex index),
   Event.op (Op.setLoop loop),
   Event.op (Op.activate 1)]

/-- The events of `perform` with nominal duration `timeout` when no helper fails; `dbl` says
whether the effect is `DOUBLE_CLICK`. -/
def performSeq (strength : EffectStrength) (gain index loop timeout : Int) (dbl : Bool)
    (callback : Option Nat) : List Event :=
  programSeq strength gain index loop ++
    (match callback with
     | some cb => [Event.thread (timeout + 10) cb]
     | none => []) ++
    (if dbl then [Event.msleep timeout, Event.op (Op.activate 1)] else [])

/-- The status of the event `e` after history `t`: a helper call has the status the port
gives it; a sleep or a thread creation cannot fail. -/
def eventStatus (hw : Port) (t : List Event) : Event → Status
  | Event.op o => hw t o
  | Event.msleep _ => Status.ok
  | Event.thread _ _ => Status.ok

/-- The port under which no helper call ever fails. -/
def okPort : Port := fun _ _ => Status.ok

/-- The number of completion threads created in a trace. -/
def threadCount (t : List Event) : Nat :=
  (t.filter fun e => match e with
    | Event.thread _ _ => true
    | _ => false).length

/-- The helper calls and sleeps of a trace, thread creations left out. -/
def operations (t : List Event) : List Event :=
  t.filter fun e => match e with
    | Event.thread _ _ => false
    | _ => true

/-- Whether every event of `seq`, issued in order after history `t`, succeeds. -/
def allOk (hw : Port) : List Event → List Event → Bool
  | _, [] => true
  | t, e :: rest => (eventStatus hw t e).isOk && allOk hw (t ++ [e]) rest

/-- Issue the events of `seq` in order after history `t` the way a chain of `CHECK_OK`
statements does: an event that succeeds is followed by the next one; an event that fails is
issued a second time and the run ends there, with the status of the second issue.  The
status handed back and the trace reached. -/
def runSeq (hw : Port) : List Event → List Event → Status × List Event
  | t, [] => (Status.ok, t)
  | t, e :: rest =>
    if (eventStatus hw t e).isOk then runSeq hw (t ++ [e]) rest
    else (eventStatus hw (t ++ [e]) e, t ++ [e, e])

/-- The state after a list of commands. -/
def run (hw : Port) (s : State) (cmds : List Command) : State :=
  cmds.foldl (exec hw) s

/-- A port under which every helper call fails with `EX_SERVICE_SPECIFIC` (-8). -/
def failPort : Port := fun _ _ => Status.exception (-8)

/-- A port under which the call made after exactly `n` earlier events fails, and no other. -/
def failAt (n : Nat) : Port := fun t _ =>
  if t.length = n then Status.exception (-8) else Status.ok

/-- A port under which every call made after `n` or more earlier events fails, and no
earlier one. -/
def failFrom (n : Nat) : Port := fun t _ =>
  if n ≤ t.length then Status.exception (-8) else Status.ok

/-- The outcome of a command that issues `seq` after state `s` as `runSeq` does and stores
`ret` through `_aidl_return` when no event fails. -/
def seqOutcome (hw : Port) (s : State) (seq : List Event) (ret : Option Int) : Outcome :=
  { status := (runSeq hw s.trace seq).1,
    ret := if allOk hw s.trace seq then ret else none,
    state := { s with trace := (runSeq hw s.trace seq).2 } }

/-- The outcome of a command whose only action is `CHECK_OK(setStrength(strength))` with the
gain `gain`.  When the call succeeds it is in the trace once and the command returns `ok`;
when it fails it is in the trace twice and the command returns the status of the second
call.  Nothing but `setStrength(strength)` with that gain is ever issued. -/
def strengthOutcome (hw : Port) (s : State) (strength : EffectStrength) (gain : Int) : Outcome :=
  if (hw s.trace (Op.setStrength strength gain)).isOk then
    { status := Status.ok,
      ret := none,
      state := { s with trace := s.trace ++ [Event.op (Op.setStrength strength gain)] } }
  else
    { status := hw (s.trace ++ [Event.op (Op.setStrength strength gain)])
        (Op.setStrength strength gain),
      ret := none,
      state := { s with trace := s.trace ++
        [Event.op (Op.setStrength strength gain), Event.op (Op.setStrength strength gain)] } }

/-! ## Lemmas on maps -/

theorem mapFind_eq_none_iff {β : Type} (m : List (Int × β)) (k : Int) :
    mapFind m k = none ↔ k ∉ mapKeys m := by
  induction m with
  | nil => simp [mapFind, mapKeys]
  | cons hd tl ih =>
    obtain ⟨k', v'⟩ := hd
    by_cases h : k = k'
    · simp [mapFind, mapKeys, h]
    · simp only [mapKeys] at ih
      simp [mapFind, mapKeys, h, ih]

theorem mapIndex_of_find {β : Type} (m : List (Int × β)) (k : Int) (d v : β)
    (h : mapFind m k = some v) : mapIndex m k d = (v, m) := by
  simp [mapIndex, h]

theorem isOk_eq_false_iff (x : Status) : x.isOk = false ↔ x ≠ Status.ok := by
  cases x <;> simp [Status.isOk]

theorem isOk_eq_true_iff (x : Status) : x.isOk = true ↔ x = Status.ok := by
  cases x <;> simp [Status.isOk]

/-! ## The commands as runs of their success-case sequence -/

theorem seqOutcome_nil (hw : Port) (s : State) (ret : Option Int) :
    seqOutcome hw s [] ret = { status := Status.ok, ret := ret, state := s } := by
  simp [seqOutcome, runSeq, allOk]

theorem seqOutcome_cons_op (hw : Port) (s : State) (o : Op) (rest : List Event)
    (ret : Option Int) :
    seqOutcome hw s (Event.op o :: rest) ret =
      CHECK_OK (fun s0 => call hw s0 o) s (fun s1 => seqOutcome hw s1 rest ret) := by
  by_cases h : (hw s.trace o).isOk = true
  · simp [seqOutcome, runSeq, allOk, eventStatus, CHECK_OK, call, h]
  · simp [seqOutcome, runSeq, allOk, eventStatus, CHECK_OK, call, h]

theorem seqOutcome_cons_msleep (hw : Port) (s : State) (d : Int) (rest : List Event)
    (ret : Option Int) :
    seqOutcome hw s (Event.msleep d :: rest) ret = seqOutcome hw (msleep s d) rest ret := by
  simp [seqOutcome, runSeq, allOk, eventStatus, msleep, Status.isOk]

theorem seqOutcome_cons_thread (hw : Port) (s : State) (d : Int) (cb : Nat)
    (rest : List Event) (ret : Option Int) :
    seqOutcome hw s (Event.thread d cb :: rest) ret =
      seqOutcome hw (spawn s d (some cb)) rest ret := by
  simp [seqOutcome, runSeq, allOk, eventStatus, spawn, Status.isOk]

theorem perform_eq_seqOutcome (hw : Port) (s : State) (effect : Effect)
    (strength : EffectStrength) (callback : Option Nat) (index loop gain : Int)
    (hE : mapFind s.vibEffects effect = some (index, loop))
    (hS : mapFind s.vibStrengths strength = some gain) :
    perform hw s effect strength callback =
      seqOutcome hw s
        (performSeq strength gain index loop (if effect = Effect.DOUBLE_CLICK then 120 else 12)
          (decide (effect = Effect.DOUBLE_CLICK)) callback)
        (some (if effect = Effect.DOUBLE_CLICK then 120 else 12)) := by
  have hI : mapIndex s.vibEffects effect ((0 : Int), (0 : Int)) = ((index, loop), s.vibEffects) :=
    mapIndex_of_find _ _ _ _ hE
  have hG : mapIndex s.vibStrengths strength (0 : Int) = (gain, s.vibStrengths) :=
    mapIndex_of_find _ _ _ _ hS
  unfold perform
  rw [if_neg (by rw [hE]; exact Option.some_ne_none _),
    if_neg (by rw [hS]; exact Option.some_ne_none _)]
  by_cases hd : effect = Effect.DOUBLE_CLICK
  · subst hd
    cases callback <;>
      simp only [performSeq, programSeq, seqOutcome_cons_op, seqOutcome_cons_msleep,
        seqOutcome_cons_thread, seqOutcome_nil, List.cons_append, List.nil_append,
        List.append_nil, decide_True, if_true, setStrength, hG, setMode, setIndex, setLoop,
        activate, spawn, CHECK_OK, call, hI, msleep]
  · have hdec : decide (effect = Effect.DOUBLE_CLICK) = false := decide_eq_false hd
    cases callback <;>
      simp only [performSeq, programSeq, seqOutcome_cons_op, seqOutcome_cons_msleep,
        seqOutcome_cons_thread, seqOutcome_nil, List.cons_append, List.nil_append,
        List.append_nil, hdec, hd, if_false, setStrength, hG, setMode, setIndex, setLoop,
        activate, spawn, CHECK_OK, call, hI, msleep, Bool.false_eq_true, decide_False]

theorem on_eq_seqOutcome (hw : Port) (s : State) (timeoutMs : Int) (callback : Option Nat) :
    on_ hw s timeoutMs callback = seqOutcome hw s (onSeq timeoutMs callback) none := by
  cases callback <;>
    simp only [on_, onSeq, seqOutcome_cons_op, seqOutcome_cons_thread, seqOutcome_nil,
      List.cons_append, List.nil_append, List.append_nil, setMode, activate, spawn]

/-! ## Lemmas on runs -/

theorem runSeq_of_allOk (hw : Port) (seq t : List Event) (h : allOk hw t seq = true) :
    runSeq hw t seq = (Status.ok, t ++ seq) := by
  induction seq generalizing t with
  | nil => simp [runSeq]
  | cons e rest ih =>
    simp only [allOk, Bool.and_eq_true] at h
    simp [runSeq, h.1, ih _ h.2]

theorem runSeq_of_not_allOk (hw : Port) (seq t : List Event) (h : allOk hw t seq = false) :
    ∃ pre e post, seq = pre ++ e :: post ∧ allOk hw t pre = true ∧
      (eventStatus hw (t ++ pre) e).isOk = false ∧
      runSeq hw t seq = (eventStatus hw (t ++ pre ++ [e]) e, t ++ pre ++ [e, e]) := by
  induction seq generalizing t with
  | nil => simp [allOk] at h
  | cons e rest ih =>
    by_cases he : (eventStatus hw t e).isOk = true
    · have hrest : allOk hw (t ++ [e]) rest = false := by
        simpa [allOk, he] using h
      obtain ⟨pre, e1, post, hsplit, hpre, hfail, hrun⟩ := ih _ hrest
      refine ⟨e :: pre, e1, post, by simp [hsplit], by simp [allOk, he, hpre], ?_, ?_⟩
      · simpa using hfail
      · simp only [runSeq, he, if_true, hrun]
        simp
    · refine ⟨[], e, rest, by simp, by simp [allOk], by simpa using he, ?_⟩
      simp [runSeq, he]

theorem threadCount_append (a b : List Event) :
    threadCount (a ++ b) = threadCount a + threadCount b := by
  simp [threadCount]

theorem operations_append (a b : List Event) :
    operations (a ++ b) = operations a ++ operations b := by
  simp [operations]

/-! ## Validation in `perform` -/

theorem perform_not_found (hw : Port) (s : State) (effect : Effect)
    (strength : EffectStrength) (callback : Option Nat)
    (h : mapFind s.vibEffects effect = none ∨ mapFind s.vibStrengths strength = none) :
    perform hw s effect strength callback =
      { status := Status.exception EX_UNSUPPORTED_OPERATION, ret := none, state := s } := by
  unfold perform
  rcases h with h | h
  · rw [if_pos h]
  · by_cases hE : mapFind s.vibEffects effect = none
    · rw [if_pos hE]
    · rw [if_neg hE, if_pos h]

/-- C1: when the effect is not a key of the effect table or the strength is not a key of the
strength table, `perform` returns `EX_UNSUPPORTED_OPERATION`, stores no duration and leaves
the state exactly as it was: the trace gains no helper call (no register write) and no
completion thread. -/
theorem perform_unsupported (hw : Port) (s : State) (effect : Effect)
    (strength : EffectStrength) (callback : Option Nat)
    (h : effect ∉ mapKeys s.vibEffects ∨ strength ∉ mapKeys s.vibStrengths) :
    perform hw s effect strength callback =
        { status := Status.exception EX_UNSUPPORTED_OPERATION, ret := none, state := s } ∧
      (perform hw s effect strength callback).state.trace = s.trace ∧
      threadCount (perform hw s effect strength callback).state.trace = threadCount s.trace := by
  have key := perform_not_found hw s effect strength callback
    (h.imp (mapFind_eq_none_iff _ _).2 (mapFind_eq_none_iff _ _).2)
  rw [key]
  exact ⟨rfl, rfl, rfl⟩

/-- Witness for C1: a valid effect (`CLICK`) with a strength that is no key (7), under a
port that would accept every write. -/
theorem perform_unsupported_witness :
    (Effect.CLICK ∉ mapKeys State.init.vibEffects ∨
        (7 : EffectStrength) ∉ mapKeys State.init.vibStrengths) ∧
      (perform okPort State.init Effect.CLICK 7 (some 0) =
          { status := Status.exception EX_UNSUPPORTED_OPERATION, ret := none,
            state := State.init } ∧
        (perform okPort State.init Effect.CLICK 7 (some 0)).state.trace = State.init.trace ∧
        threadCount (perform okPort State.init Effect.CLICK 7 (some 0)).state.trace =
          threadCount State.init.trace) :=
  ⟨Or.inr (by decide),
    perform_unsupported okPort State.init Effect.CLICK 7 (some 0) (Or.inr (by decide))⟩

/-- Counterexample to C2 as worded ("never errors"): `CLICK` and `LIGHT` are keys of the two
tables, yet under a port whose writes fail `perform` returns that failure and stores no
duration. -/
theorem perform_valid_can_fail :
    Effect.CLICK ∈ mapKeys State.init.vibEffects ∧
      EffectStrength.LIGHT ∈ mapKeys State.init.vibStrengths ∧
      (perform failPort State.init Effect.CLICK EffectStrength.LIGHT none).status =
        Status.exception (-8) ∧
      (perform failPort State.init Effect.CLICK EffectStrength.LIGHT none).ret = none := by
  decide

/-- C2 (amended): for an effect and a strength that are keys of the tables, when every
helper call of the command succeeds `perform` returns `ok` and stores the duration 120
(`DOUBLE_CLICK`) or 12 (any other effect). -/
theorem perform_duration (hw : Port) (s : State) (effect : Effect)
    (strength : EffectStrength) (callback : Option Nat) (index loop gain : Int)
    (hE : mapFind s.vibEffects effect = some (index, loop))
    (hS : mapFind s.vibStrengths strength = some gain)
    (hok : allOk hw s.trace (performSeq strength gain index loop
        (if effect = Effect.DOUBLE_CLICK then 120 else 12)
        (decide (effect = Effect.DOUBLE_CLICK)) callback) = true) :
    (perform hw s effect strength callback).status = Status.ok ∧
      (perform hw s effect strength callback).ret =
        some (if effect = Effect.DOUBLE_CLICK then 120 else 12) := by
  rw [perform_eq_seqOutcome hw s effect strength callback index loop gain hE hS]
  simp only [seqOutcome]
  rw [runSeq_of_allOk hw _ _ hok, hok]
  exact ⟨rfl, rfl⟩

/-- Witness for C2 (amended): `DOUBLE_CLICK` at `MEDIUM` from the initial state, under the
port that never fails. -/
theorem perform_duration_witness :
    mapFind State.init.vibEffects Effect.DOUBLE_CLICK = some (3, 0) ∧
      mapFind State.init.vibStrengths EffectStrength.MEDIUM = some 96 ∧
      (perform okPort State.init Effect.DOUBLE_CLICK EffectStrength.MEDIUM (some 0)).status =
        Status.ok ∧
      (perform okPort State.init Effect.DOUBLE_CLICK EffectStrength.MEDIUM (some 0)).ret =
        some 120 :=
  ⟨by decide, by decide,
    perform_duration okPort State.init Effect.DOUBLE_CLICK EffectStrength.MEDIUM (some 0)
      3 0 96 (by decide) (by decide) (by decide)⟩

theorem vibEffects_eq :
    vibEffects = [(0, (3, 0)), (1, (3, 0)), (2, (2, 0)), (5, (5, 0)), (21, (4, 15))] := by
  decide

theorem vibStrengths_eq : vibStrengths = [(0, 64), (1, 96), (2, 128)] := by
  decide

/-! ## The write sequence of `perform` -/

/-- C4: for an effect with descriptor `(index, loop)` and a strength with gain `gain`, both
found in the tables, when every helper call of the command succeeds the trace grows by
exactly `setStrength`, `setMode(mode)`, `setIndex(index)`, `setLoop(loop)`, `activate(1)`
(then the completion thread, if a callback was given) and, exactly for `DOUBLE_CLICK`, a
120 ms sleep and a second `activate(1)`; `mode` is `AW_RAM_LOOP_MODE` (5) when `loop` is not
zero and `AW_RAM_MODE` (1) otherwise.  In the table of `Vibrator.h` the only descriptor with
a non-zero loop count is that of `TEXTURE_TICK`, `(4, 15)`. -/
theorem perform_sequence (hw : Port) (s : State) (effect : Effect)
    (strength : EffectStrength) (callback : Option Nat) (index loop gain : Int)
    (hE : mapFind s.vibEffects effect = some (index, loop))
    (hS : mapFind s.vibStrengths strength = some gain)
    (hok : allOk hw s.trace (performSeq strength gain index loop
        (if effect = Effect.DOUBLE_CLICK then 120 else 12)
        (decide (effect = Effect.DOUBLE_CLICK)) callback) = true) :
    (perform hw s effect strength callback).state.trace =
        s.trace ++ performSeq strength gain index loop
          (if effect = Effect.DOUBLE_CLICK then 120 else 12)
          (decide (effect = Effect.DOUBLE_CLICK)) callback ∧
      operations (performSeq strength gain index loop
          (if effect = Effect.DOUBLE_CLICK then 120 else 12)
          (decide (effect = Effect.DOUBLE_CLICK)) callback) =
        [Event.op (Op.setStrength strength gain),
         Event.op (Op.setMode (if loop ≠ 0 then 5 else 1)),
         Event.op (Op.setIndex index),
         Event.op (Op.setLoop loop),
         Event.op (Op.activate 1)] ++
        (if effect = Effect.DOUBLE_CLICK then [Event.msleep 120, Event.op (Op.activate 1)]
         else []) ∧
      (∀ (e : Effect) (i l : Int), mapFind vibEffects e = some (i, l) →
        (l ≠ 0 ↔ e = Effect.TEXTURE_TICK)) ∧
      mapFind vibEffects Effect.TEXTURE_TICK = some (4, 15) := by
  refine ⟨?_, ?_, ?_, by decide⟩
  · rw [perform_eq_seqOutcome hw s effect strength callback index loop gain hE hS]
    simp only [seqOutcome]
    rw [runSeq_of_allOk hw _ _ hok]
  · by_cases hd : effect = Effect.DOUBLE_CLICK <;> cases callback <;>
      simp [performSeq, programSeq, operations, hd]
  · intro e i l h
    rw [vibEffects_eq] at h
    simp only [mapFind] at h
    split_ifs at h with h0 h1 h2 h5 h21
    all_goals
      simp only [Option.some.injEq, Prod.mk.injEq] at h
      obtain ⟨-, rfl⟩ := h
      subst e
      decide

/-- Witness for C4: `TEXTURE_TICK` at `STRONG` with a callback, from the initial state, under
the port that never fails. -/
theorem perform_sequence_witness :
    (perform okPort State.init Effect.TEXTURE_TICK EffectStrength.STRONG (some 0)).state.trace =
      [Event.op (Op.setStrength EffectStrength.STRONG 128),
       Event.op (Op.setMode AW_RAM_LOOP_MODE),
       Event.op (Op.setIndex 4),
       Event.op (Op.setLoop 15),
       Event.op (Op.activate 1),
       Event.thread 22 0] :=
  (perform_sequence okPort State.init Effect.TEXTURE_TICK EffectStrength.STRONG (some 0)
    4 15 128 (by decide) (by decide) (by decide)).1

/-! ## The command `on` -/

/-- C8: when `setMode(AW_CONT_MODE)` and `activate(timeoutMs)` both succeed, `on` returns
`ok` (with or without a callback) and the trace grows by exactly `setMode(4)`,
`activate(timeoutMs)` and, if and only if a callback was given, one completion thread with
delay `timeoutMs`. -/
theorem on_sequence (hw : Port) (s : State) (timeoutMs : Int) (callback : Option Nat)
    (h1 : hw s.trace (Op.setMode AW_CONT_MODE) = Status.ok)
    (h2 : hw (s.trace ++ [Event.op (Op.setMode AW_CONT_MODE)]) (Op.activate timeoutMs) =
      Status.ok) :
    on_ hw s timeoutMs callback =
        { status := Status.ok, ret := none,
          state := { s with trace := s.trace ++
            ([Event.op (Op.setMode 4), Event.op (Op.activate timeoutMs)] ++
              (match callback with
               | some cb => [Event.thread timeoutMs cb]
               | none => [])) } } ∧
      threadCount (on_ hw s timeoutMs callback).state.trace =
        threadCount s.trace + (if callback.isSome then 1 else 0) := by
  have hA : allOk hw s.trace (onSeq timeoutMs callback) = true := by
    cases callback <;> simp [onSeq, allOk, eventStatus, h1, h2, Status.isOk]
  have key : on_ hw s timeoutMs callback =
      { status := Status.ok, ret := none,
        state := { s with trace := s.trace ++ onSeq timeoutMs callback } } := by
    rw [on_eq_seqOutcome]
    simp only [seqOutcome]
    rw [runSeq_of_allOk hw _ _ hA]
    simp
  rw [key]
  refine ⟨rfl, ?_⟩
  cases callback <;> simp [onSeq, threadCount]

/-- Witness for C8: `on(200, callback)` from the initial state under the port that never
fails. -/
theorem on_sequence_witness :
    on_ okPort State.init 200 (some 0) =
        { status := Status.ok, ret := none,
          state := { State.init with trace :=
            [Event.op (Op.setMode 4), Event.op (Op.activate 200), Event.thread 200 0] } } ∧
      threadCount (on_ okPort State.init 200 (some 0)).state.trace = 1 :=
  on_sequence okPort State.init 200 (some 0) rfl rfl

/-! ## Failing helper calls -/

theorem runSeq_of_not_allOk_op (hw : Port) (seq t : List Event)
    (h : allOk hw t seq = false) :
    ∃ pre o post, seq = pre ++ Event.op o :: post ∧ allOk hw t pre = true ∧
      (hw (t ++ pre) o).isOk = false ∧
      runSeq hw t seq =
        (hw (t ++ pre ++ [Event.op o]) o, t ++ pre ++ [Event.op o, Event.op o]) := by
  obtain ⟨pre, e, post, hsplit, hpre, hfail, hrun⟩ := runSeq_of_not_allOk hw seq t h
  cases e with
  | op o => exact ⟨pre, o, post, hsplit, hpre, hfail, hrun⟩
  | msleep d => simp [eventStatus, Status.isOk] at hfail
  | thread d cb => simp [eventStatus, Status.isOk] at hfail

/-- C5 (the code at failing inputs): a helper call that fails is issued a second time and the
command returns the status of the second call, because `CHECK_OK(x)` expands to
`if (!x.isOk()) return x` with the call `x` written out twice.  When only the first
`setMode(4)` of `on(200)` fails, the trace is `setMode(4), setMode(4)` (not the prefix
`setMode(4)`), `activate` is never called and the command returns `ok` (not the failure).
When every call fails, `on(200)` and `perform(CLICK, LIGHT)` issue their first call twice
and return the failure of the second. -/
theorem check_ok_reissues_failed_call :
    allOk (failAt 0) State.init.trace (onSeq 200 none) = false ∧
      on_ (failAt 0) State.init 200 none =
        { status := Status.ok, ret := none,
          state := { State.init with trace :=
            [Event.op (Op.setMode AW_CONT_MODE), Event.op (Op.setMode AW_CONT_MODE)] } } ∧
      on_ failPort State.init 200 none =
        { status := Status.exception (-8), ret := none,
          state := { State.init with trace :=
            [Event.op (Op.setMode AW_CONT_MODE), Event.op (Op.setMode AW_CONT_MODE)] } } ∧
      perform failPort State.init Effect.CLICK EffectStrength.LIGHT none =
        { status := Status.exception (-8), ret := none,
          state := { State.init with trace :=
            [Event.op (Op.setStrength EffectStrength.LIGHT 64),
              Event.op (Op.setStrength EffectStrength.LIGHT 64)] } } := by
  decide

/-! ## Completion threads -/

/-- C7 (the code at a failing input): `perform(TEXTURE_TICK, STRONG, callback)` from the
initial state when only the first `setIndex(4)` fails.  `CHECK_OK` issues `setIndex(4)` a
second time, that call succeeds and its status is returned: the command returns `ok`
although a callback was supplied and no completion thread was created; no duration is
stored, and `setLoop` and `activate` are never called. -/
theorem perform_ok_without_completion :
    perform (failAt 2) State.init Effect.TEXTURE_TICK EffectStrength.STRONG (some 0) =
        { status := Status.ok, ret := none,
          state := { State.init with trace :=
            [Event.op (Op.setStrength EffectStrength.STRONG 128),
              Event.op (Op.setMode AW_RAM_LOOP_MODE),
              Event.op (Op.setIndex 4),
              Event.op (Op.setIndex 4)] } } ∧
      threadCount (perform (failAt 2) State.init Effect.TEXTURE_TICK EffectStrength.STRONG
        (some 0)).state.trace = 0 := by
  decide

theorem perform_completion_of_allOk (hw : Port) (s : State) (effect : Effect)
    (strength : EffectStrength) (callback : Option Nat) (index loop gain : Int)
    (hE : mapFind s.vibEffects effect = some (index, loop))
    (hS : mapFind s.vibStrengths strength = some gain)
    (hok : allOk hw s.trace (performSeq strength gain index loop
        (if effect = Effect.DOUBLE_CLICK then 120 else 12)
        (decide (effect = Effect.DOUBLE_CLICK)) callback) = true) :
    (perform hw s effect strength callback).state.trace =
        s.trace ++ programSeq strength gain index loop ++
          (match callback with
           | some cb => [Event.thread (if effect = Effect.DOUBLE_CLICK then 130 else 22) cb]
           | none => []) ++
          (if effect = Effect.DOUBLE_CLICK then [Event.msleep 120, Event.op (Op.activate 1)]
           else []) ∧
      threadCount (perform hw s effect strength callback).state.trace =
        threadCount s.trace + (if callback.isSome then 1 else 0) := by
  rw [perform_eq_seqOutcome hw s effect strength callback index loop gain hE hS]
  simp only [seqOutcome]
  rw [runSeq_of_allOk hw _ _ hok]
  by_cases hd : effect = Effect.DOUBLE_CLICK <;> cases callback <;>
    simp [performSeq, programSeq, threadCount, hd]

theorem runSeq_trace_prefix (hw : Port) (seq t : List Event) :
    t <+: (runSeq hw t seq).2 := by
  induction seq generalizing t with
  | nil => simp [runSeq]
  | cons e rest ih =>
    by_cases he : (eventStatus hw t e).isOk = true
    · simp only [runSeq, he, if_true]
      exact (List.prefix_append t [e]).trans (ih _)
    · simp [runSeq, he]

theorem runSeq_append (hw : Port) (a b t : List Event) :
    runSeq hw t (a ++ b) =
      if allOk hw t a then runSeq hw (t ++ a) b else runSeq hw t a := by
  induction a generalizing t with
  | nil => simp [allOk, runSeq]
  | cons e rest ih =>
    by_cases he : (eventStatus hw t e).isOk = true
    · simp [runSeq, allOk, he, ih]
    · simp [runSeq, allOk, he]

theorem threadCount_runSeq_of_fail (hw : Port) (seq t : List Event)
    (h0 : threadCount seq = 0) (h : allOk hw t seq = false) :
    threadCount (runSeq hw t seq).2 = threadCount t := by
  obtain ⟨pre, o, post, hsplit, -, -, hrun⟩ := runSeq_of_not_allOk_op hw seq t h
  rw [hsplit, threadCount_append] at h0
  rw [hrun]
  simp only [threadCount_append]
  have : threadCount [Event.op o, Event.op o] = 0 := rfl
  omega

theorem threadCount_runSeq_of_none (hw : Port) (seq t : List Event)
    (h0 : threadCount seq = 0) :
    threadCount (runSeq hw t seq).2 = threadCount t := by
  cases h : allOk hw t seq
  · exact threadCount_runSeq_of_fail hw seq t h0 h
  · rw [runSeq_of_allOk hw seq t h, threadCount_append, h0]
    rfl

/-- Counterexample to C6 as worded: `perform(DOUBLE_CLICK, MEDIUM, callback)` from the
initial state, when the five programming calls succeed and every later call fails.  The
completion thread is already in the trace, ahead of the sleep and of the failing second
`activate(1)` (issued twice by `CHECK_OK`), and the command returns the failure. -/
theorem completion_before_second_activate :
    (perform (failFrom 7) State.init Effect.DOUBLE_CLICK EffectStrength.MEDIUM
        (some 0)).status = Status.exception (-8) ∧
      (perform (failFrom 7) State.init Effect.DOUBLE_CLICK EffectStrength.MEDIUM
          (some 0)).state.trace =
        [Event.op (Op.setStrength EffectStrength.MEDIUM 96),
         Event.op (Op.setMode AW_RAM_MODE),
         Event.op (Op.setIndex 3),
         Event.op (Op.setLoop 0),
         Event.op (Op.activate 1),
         Event.thread 130 0,
         Event.msleep 120,
         Event.op (Op.activate 1),
         Event.op (Op.activate 1)] ∧
      threadCount (perform (failFrom 7) State.init Effect.DOUBLE_CLICK EffectStrength.MEDIUM
          (some 0)).state.trace = 1 := by
  decide

/-- C6 (amended): a completion thread is created only after the register programming up to
the activation has succeeded.  For `on`: a call that returns a failure creates no thread, and
a call that creates one had `setMode(4)` and `activate(timeoutMs)` succeed and issued them
before the thread.  For `perform`: a call that creates a thread found the effect and the
strength in the tables, had all five programming calls (through the first `activate(1)`)
succeed, and issued them before the thread; a call for an effect other than `DOUBLE_CLICK`
that returns a failure creates no thread.  For `DOUBLE_CLICK` with a callback, once the five
programming calls have succeeded the thread precedes the sleep and the second `activate(1)`,
whatever the status of that second call. -/
theorem completion_after_programming (hw : Port) (s : State) :
    (∀ (timeoutMs : Int) (callback : Option Nat),
      ((on_ hw s timeoutMs callback).status ≠ Status.ok →
        threadCount (on_ hw s timeoutMs callback).state.trace = threadCount s.trace) ∧
      (threadCount (on_ hw s timeoutMs callback).state.trace ≠ threadCount s.trace →
        allOk hw s.trace
            [Event.op (Op.setMode AW_CONT_MODE), Event.op (Op.activate timeoutMs)] = true ∧
          ∃ cb, callback = some cb ∧
            (on_ hw s timeoutMs callback).state.trace =
              s.trace ++ [Event.op (Op.setMode AW_CONT_MODE), Event.op (Op.activate timeoutMs),
                Event.thread timeoutMs cb])) ∧
    (∀ (effect : Effect) (strength : EffectStrength) (callback : Option Nat),
      (threadCount (perform hw s effect strength callback).state.trace ≠ threadCount s.trace →
        ∃ index loop gain cb,
          mapFind s.vibEffects effect = some (index, loop) ∧
          mapFind s.vibStrengths strength = some gain ∧
          callback = some cb ∧
          allOk hw s.trace (programSeq strength gain index loop) = true ∧
          (s.trace ++ programSeq strength gain index loop ++
              [Event.thread ((if effect = Effect.DOUBLE_CLICK then 120 else 12) + 10) cb]) <+:
            (perform hw s effect strength callback).state.trace) ∧
      (effect ≠ Effect.DOUBLE_CLICK →
        (perform hw s effect strength callback).status ≠ Status.ok →
        threadCount (perform hw s effect strength callback).state.trace =
          threadCount s.trace)) ∧
    (∀ (strength : EffectStrength) (cb : Nat) (index loop gain : Int),
      mapFind s.vibEffects Effect.DOUBLE_CLICK = some (index, loop) →
      mapFind s.vibStrengths strength = some gain →
      allOk hw s.trace (programSeq strength gain index loop) = true →
      (s.trace ++ programSeq strength gain index loop ++
          [Event.thread 130 cb, Event.msleep 120, Event.op (Op.activate 1)]) <+:
        (perform hw s Effect.DOUBLE_CLICK strength (some cb)).state.trace) := by
  refine ⟨?_, ?_, ?_⟩
  rotate_left 2
  · intro strength cb index loop gain hE hS hA
    rw [perform_eq_seqOutcome hw s Effect.DOUBLE_CLICK strength (some cb) index loop gain hE hS]
    simp only [seqOutcome, performSeq, List.append_assoc]
    rw [runSeq_append, hA]
    simp only [if_true, decide_True, List.singleton_append, runSeq, eventStatus, Status.isOk]
    split_ifs <;> simp
  · intro timeoutMs callback
    rw [on_eq_seqOutcome]
    simp only [seqOutcome]
    have hsplit : onSeq timeoutMs callback =
        [Event.op (Op.setMode AW_CONT_MODE), Event.op (Op.activate timeoutMs)] ++
          (match callback with
           | some cb => [Event.thread timeoutMs cb]
           | none => []) := rfl
    rw [hsplit, runSeq_append]
    cases hA : allOk hw s.trace
        [Event.op (Op.setMode AW_CONT_MODE), Event.op (Op.activate timeoutMs)]
    · have hc := threadCount_runSeq_of_fail hw
        [Event.op (Op.setMode AW_CONT_MODE), Event.op (Op.activate timeoutMs)] s.trace rfl hA
      simp only [Bool.false_eq_true, if_false]
      exact ⟨fun _ => hc, fun h => absurd hc h⟩
    · simp only [if_true]
      cases callback with
      | none => simp [runSeq, threadCount]
      | some cb => simp [runSeq, eventStatus, Status.isOk, threadCount]
  · intro effect strength callback
    cases hE : mapFind s.vibEffects effect with
    | none =>
      have h := perform_not_found hw s effect strength callback (Or.inl hE)
      rw [h]
      simp
    | some d =>
      cases hS : mapFind s.vibStrengths strength with
      | none =>
        have h := perform_not_found hw s effect strength callback (Or.inr hS)
        rw [h]
        simp
      | some gain =>
        obtain ⟨index, loop⟩ := d
        rw [perform_eq_seqOutcome hw s effect strength callback index loop gain hE hS]
        simp only [seqOutcome, performSeq, List.append_assoc]
        rw [runSeq_append]
        cases hA : allOk hw s.trace (programSeq strength gain index loop)
        · have hc := threadCount_runSeq_of_fail hw _ s.trace
            (show threadCount (programSeq strength gain index loop) = 0 from rfl) hA
          simp only [Bool.false_eq_true, if_false]
          exact ⟨fun h => absurd hc h, fun _ _ => hc⟩
        · simp only [if_true]
          cases callback with
          | none =>
            have hc := threadCount_runSeq_of_none hw
              (if decide (effect = Effect.DOUBLE_CLICK) = true then
                [Event.msleep (if effect = Effect.DOUBLE_CLICK then 120 else 12),
                  Event.op (Op.activate 1)]
               else [])
              (s.trace ++ programSeq strength gain index loop)
              (by split_ifs <;> rfl)
            simp only [List.nil_append]
            rw [hc]
            simp [threadCount_append, programSeq, threadCount]
          | some cb =>
            refine ⟨fun _ => ⟨index, loop, gain, cb, rfl, rfl, rfl, hA, ?_⟩, ?_⟩
            · simp only [List.singleton_append, runSeq, eventStatus, Status.isOk, if_true]
              have hp := runSeq_trace_prefix hw
                (if decide (effect = Effect.DOUBLE_CLICK) = true then
                  [Event.msleep (if effect = Effect.DOUBLE_CLICK then 120 else 12),
                    Event.op (Op.activate 1)]
                 else [])
                (s.trace ++ programSeq strength gain index loop ++
                  [Event.thread ((if effect = Effect.DOUBLE_CLICK then 120 else 12) + 10) cb])
              simpa using hp
            · intro hd hfail
              exfalso
              apply hfail
              simp [runSeq, eventStatus, Status.isOk, hd]

/-- Witness for C6 (amended): `perform(CLICK, LIGHT, callback)` from the initial state under
the port that never fails creates a thread, so its five programming calls succeeded and
precede the thread. -/
theorem completion_after_programming_witness :
    ∃ index loop gain cb,
      mapFind State.init.vibEffects Effect.CLICK = some (index, loop) ∧
      mapFind State.init.vibStrengths EffectStrength.LIGHT = some gain ∧
      (some 0 : Option Nat) = some cb ∧
      allOk okPort State.init.trace (programSeq EffectStrength.LIGHT gain index loop) = true ∧
      (State.init.trace ++ programSeq EffectStrength.LIGHT gain index loop ++
          [Event.thread ((if Effect.CLICK = Effect.DOUBLE_CLICK then 120 else 12) + 10) cb]) <+:
        (perform okPort State.init Effect.CLICK EffectStrength.LIGHT (some 0)).state.trace :=
  ((completion_after_programming okPort State.init).2.1 Effect.CLICK EffectStrength.LIGHT
    (some 0)).1 (by decide)

/-! ## The supported effects -/

theorem foldl_push (keys out : List Effect) :
    keys.foldl (fun acc k => acc ++ [k]) out = out ++ keys := by
  induction keys generalizing out with
  | nil => simp
  | cons k rest ih => simp [ih]

/-- Counterexample to C9 as worded ("for every state of the caller's output list"): called
with an output list that already holds `CLICK`, the list afterwards has six elements, not
the five keys. -/
theorem getSupportedEffects_keeps_old_contents :
    getSupportedEffects State.init [Effect.CLICK] =
        (Status.ok, [Effect.CLICK, Effect.CLICK, Effect.DOUBLE_CLICK, Effect.TICK,
          Effect.HEAVY_CLICK, Effect.TEXTURE_TICK]) ∧
      (getSupportedEffects State.init [Effect.CLICK]).2 ≠ mapKeys State.init.vibEffects := by
  decide

/-- C9 (amended): `getSupportedEffects` returns `ok` and appends the keys of the effect
table, in iteration order, to the caller's list.  With the table of `Vibrator.h` these are
`CLICK`, `DOUBLE_CLICK`, `TICK`, `HEAVY_CLICK`, `TEXTURE_TICK` (ascending enum value), each
once; called on an empty list, as often as one likes, it yields exactly these five. -/
theorem getSupportedEffects_appends (s : State) (out : List Effect) :
    getSupportedEffects s out = (Status.ok, out ++ mapKeys s.vibEffects) ∧
      getSupportedEffects State.init out =
        (Status.ok, out ++ [Effect.CLICK, Effect.DOUBLE_CLICK, Effect.TICK, Effect.HEAVY_CLICK,
          Effect.TEXTURE_TICK]) ∧
      getSupportedEffects State.init [] =
        (Status.ok, [Effect.CLICK, Effect.DOUBLE_CLICK, Effect.TICK, Effect.HEAVY_CLICK,
          Effect.TEXTURE_TICK]) ∧
      (mapKeys State.init.vibEffects).Nodup ∧
      (mapKeys State.init.vibEffects).length = 5 := by
  have hk : mapKeys State.init.vibEffects =
      [Effect.CLICK, Effect.DOUBLE_CLICK, Effect.TICK, Effect.HEAVY_CLICK,
        Effect.TEXTURE_TICK] := by decide
  refine ⟨?_, ?_, ?_, ?_, ?_⟩
  · simp [getSupportedEffects, foldl_push]
  · simp [getSupportedEffects, foldl_push, hk]
  · simp [getSupportedEffects, foldl_push, hk]
  · rw [hk]; decide
  · rw [hk]; rfl

/-! ## The tables are never written -/

theorem seqOutcome_tables (hw : Port) (s : State) (seq : List Event) (ret : Option Int) :
    (seqOutcome hw s seq ret).state.vibEffects = s.vibEffects ∧
      (seqOutcome hw s seq ret).state.vibStrengths = s.vibStrengths :=
  ⟨rfl, rfl⟩

theorem perform_tables (hw : Port) (s : State) (effect : Effect) (strength : EffectStrength)
    (callback : Option Nat) :
    (perform hw s effect strength callback).state.vibEffects = s.vibEffects ∧
      (perform hw s effect strength callback).state.vibStrengths = s.vibStrengths := by
  cases hE : mapFind s.vibEffects effect with
  | none =>
    rw [perform_not_found hw s effect strength callback (Or.inl hE)]
    exact ⟨rfl, rfl⟩
  | some d =>
    cases hS : mapFind s.vibStrengths strength with
    | none =>
      rw [perform_not_found hw s effect strength callback (Or.inr hS)]
      exact ⟨rfl, rfl⟩
    | some gain =>
      obtain ⟨index, loop⟩ := d
      rw [perform_eq_seqOutcome hw s effect strength callback index loop gain hE hS]
      exact seqOutcome_tables _ _ _ _

theorem setStrength_of_find (hw : Port) (s : State) (strength : EffectStrength) (gain : Int)
    (h : mapFind s.vibStrengths strength = some gain) :
    setStrength hw s strength =
      (hw s.trace (Op.setStrength strength gain),
        { s with trace := s.trace ++ [Event.op (Op.setStrength strength gain)] }) := by
  simp [setStrength, mapIndex_of_find _ _ _ _ h, call]

theorem CHECK_OK_setStrength (hw : Port) (s : State) (strength : EffectStrength) (gain : Int)
    (h : mapFind s.vibStrengths strength = some gain) :
    CHECK_OK (fun s0 => setStrength hw s0 strength) s
        (fun s1 => { status := Status.ok, ret := none, state := s1 }) =
      strengthOutcome hw s strength gain := by
  have hG : mapIndex s.vibStrengths strength (0 : Int) = (gain, s.vibStrengths) :=
    mapIndex_of_find _ _ _ _ h
  by_cases hst : (hw s.trace (Op.setStrength strength gain)).isOk = true
  · simp [CHECK_OK, strengthOutcome, setStrength, call, hG, hst]
  · simp [CHECK_OK, strengthOutcome, setStrength, call, hG, hst]

theorem strengthOutcome_tables (hw : Port) (s : State) (strength : EffectStrength)
    (gain : Int) :
    (strengthOutcome hw s strength gain).state.vibEffects = s.vibEffects ∧
      (strengthOutcome hw s strength gain).state.vibStrengths = s.vibStrengths := by
  unfold strengthOutcome
  split_ifs <;> exact ⟨rfl, rfl⟩

theorem setAmplitude_tables (hw : Port) (s : State) (a : F32)
    (hT : s.vibStrengths = vibStrengths) :
    (setAmplitude hw s a).state.vibEffects = s.vibEffects ∧
      (setAmplitude hw s a).state.vibStrengths = s.vibStrengths := by
  have h0 : mapFind s.vibStrengths EffectStrength.LIGHT = some 64 := by rw [hT]; decide
  have h1 : mapFind s.vibStrengths EffectStrength.MEDIUM = some 96 := by rw [hT]; decide
  have h2 : mapFind s.vibStrengths EffectStrength.STRONG = some 128 := by rw [hT]; decide
  unfold setAmplitude
  split_ifs
  · simp only [CHECK_OK_setStrength hw s _ _ h0]; exact strengthOutcome_tables _ _ _ _
  · simp only [CHECK_OK_setStrength hw s _ _ h1]; exact strengthOutcome_tables _ _ _ _
  · simp only [CHECK_OK_setStrength hw s _ _ h2]; exact strengthOutcome_tables _ _ _ _
  · exact ⟨rfl, rfl⟩

theorem exec_tables (hw : Port) (s : State) (c : Command)
    (hE : s.vibEffects = vibEffects) (hS : s.vibStrengths = vibStrengths) :
    (exec hw s c).vibEffects = vibEffects ∧ (exec hw s c).vibStrengths = vibStrengths := by
  cases c with
  | getCapabilities => exact ⟨hE, hS⟩
  | off => exact ⟨hE, hS⟩
  | on_ timeoutMs callback =>
    simp only [exec, on_eq_seqOutcome]
    exact ⟨hE, hS⟩
  | perform effect strength callback =>
    simp only [exec]
    rw [(perform_tables hw s effect strength callback).1,
      (perform_tables hw s effect strength callback).2]
    exact ⟨hE, hS⟩
  | getSupportedEffects out => exact ⟨hE, hS⟩
  | setAmplitude a =>
    simp only [exec]
    rw [(setAmplitude_tables hw s a hS).1, (setAmplitude_tables hw s a hS).2]
    exact ⟨hE, hS⟩
  | extended m => exact ⟨hE, hS⟩

theorem run_tables (hw : Port) (cmds : List Command) (s : State)
    (hE : s.vibEffects = vibEffects) (hS : s.vibStrengths = vibStrengths) :
    (run hw s cmds).vibEffects = vibEffects ∧ (run hw s cmds).vibStrengths = vibStrengths := by
  induction cmds generalizing s with
  | nil => exact ⟨hE, hS⟩
  | cons c rest ih =>
    obtain ⟨h1, h2⟩ := exec_tables hw s c hE hS
    exact ih (exec hw s c) h1 h2

/-- C10: the two tables are never changed.  After any list of commands, run from the initial
tables under any port and after any earlier trace, `vibEffects` and `vibStrengths` are the
tables of `Vibrator.h`; and `perform` leaves both tables as it found them in every state and
for every argument, a key that is absent included (the `find` guards return before
`vibEffects[effect]` is evaluated).  The tables have 5 and 3 entries, and the gains 64, 96,
128 increase with the strength. -/
theorem tables_immutable (hw : Port) (t : List Event) (cmds : List Command) :
    (run hw { State.init with trace := t } cmds).vibEffects = vibEffects ∧
      (run hw { State.init with trace := t } cmds).vibStrengths = vibStrengths ∧
      (∀ (s : State) (effect : Effect) (strength : EffectStrength) (callback : Option Nat),
        (perform hw s effect strength callback).state.vibEffects = s.vibEffects ∧
          (perform hw s effect strength callback).state.vibStrengths = s.vibStrengths) ∧
      vibEffects.length = 5 ∧
      vibStrengths =
        [(EffectStrength.LIGHT, 64), (EffectStrength.MEDIUM, 96), (EffectStrength.STRONG, 128)] ∧
      (∀ (a b : EffectStrength) (ga gb : Int), mapFind vibStrengths a = some ga →
        mapFind vibStrengths b = some gb → a < b → ga < gb) := by
  refine ⟨(run_tables hw cmds _ rfl rfl).1, (run_tables hw cmds _ rfl rfl).2,
    fun s effect strength callback => perform_tables hw s effect strength callback,
    by decide, by decide, ?_⟩
  intro a b ga gb ha hb hab
  rw [vibStrengths_eq] at ha hb
  simp only [mapFind] at ha hb
  split_ifs at ha <;> split_ifs at hb <;> simp_all <;> omega

/-! ## The amplitude bands -/

theorem key_zero : F32.zero.key = 0 := by decide
theorem key_c033 : F32.c033.key = 1051260355 := by decide
theorem key_c066 : F32.c066.key = 1059648963 := by decide
theorem key_one : F32.one.key = 1065353216 := by decide

/-- The float literals of `setAmplitude` are the binary32 values nearest to the decimals
written in the source: each differs from its decimal by less than half a unit in the last
place (`2 ^ (-26)`, `2 ^ (-25)`), and `0.0f`, `1.0f` are exact.  Both `0.33f` and `0.66f`
lie slightly above the decimal. -/
theorem literals_nearest :
    F32.zero.toRat = 0 ∧ F32.one.toRat = 1 ∧
      F32.c033.toRat - 33 / 100 = 11 / 838860800 ∧
      F32.c066.toRat - 66 / 100 = 11 / 419430400 ∧
      F32.c034.toRat - 34 / 100 = 3 / 838860800 ∧
      101 / 100 - F32.c101.toRat = 1 / 104857600 ∧
      (11 : ℚ) / 838860800 < 1 / 2 ^ 26 ∧ (11 : ℚ) / 419430400 < 1 / 2 ^ 25 ∧
      (3 : ℚ) / 838860800 < 1 / 2 ^ 26 ∧ (1 : ℚ) / 104857600 < 1 / 2 ^ 24 := by
  refine ⟨?_, ?_, ?_, ?_, ?_, ?_, ?_, ?_, ?_, ?_⟩ <;>
    norm_num [F32.toRat, F32.scaled, F32.zero, F32.one, F32.c033, F32.c066, F32.c034,
      F32.c101, Fin.coe_ofNat_eq_mod]

/-- C3: with the strength table of `Vibrator.h`, `setAmplitude(a)` programs the gain with
`setStrength(LIGHT)`, gain 64, when `0 < a <= 0.33f`, with `setStrength(MEDIUM)`, gain 96,
when `0.33f < a <= 0.66f`, and with `setStrength(STRONG)`, gain 128, when
`0.66f < a <= 1.0f`, and issues nothing else: the call is issued once and `ok` returned when
it succeeds, and issued twice and the second status returned when it fails (see
`strengthOutcome`).  When `a <= 0` or `a > 1.0f` (and also when `a` is a NaN) it returns
`EX_ILLEGAL_ARGUMENT` and leaves the state, hence the trace, untouched.  The comparisons are those of the code, on `float`, against the float
literals.  In particular `0.33f` gives `LIGHT`/64, the float nearest `0.34` gives
`MEDIUM`/96, `1.0f` gives `STRONG`/128, and `0.0f` and the float nearest `1.01` fail. -/
theorem setAmplitude_bands (hw : Port) (s : State) (a : F32)
    (hT : s.vibStrengths = vibStrengths) :
    (F32.gt a F32.zero = true → F32.le a F32.c033 = true →
        setAmplitude hw s a = strengthOutcome hw s EffectStrength.LIGHT 64) ∧
      (F32.gt a F32.c033 = true → F32.le a F32.c066 = true →
        setAmplitude hw s a = strengthOutcome hw s EffectStrength.MEDIUM 96) ∧
      (F32.gt a F32.c066 = true → F32.le a F32.one = true →
        setAmplitude hw s a = strengthOutcome hw s EffectStrength.STRONG 128) ∧
      (F32.le a F32.zero = true ∨ F32.gt a F32.one = true ∨ a.isNaN = true →
        setAmplitude hw s a =
          { status := Status.exception EX_ILLEGAL_ARGUMENT, ret := none, state := s }) ∧
      setAmplitude hw s F32.c033 = strengthOutcome hw s EffectStrength.LIGHT 64 ∧
      setAmplitude hw s F32.c034 = strengthOutcome hw s EffectStrength.MEDIUM 96 ∧
      setAmplitude hw s F32.one = strengthOutcome hw s EffectStrength.STRONG 128 ∧
      setAmplitude hw s F32.zero =
        { status := Status.exception EX_ILLEGAL_ARGUMENT, ret := none, state := s } ∧
      setAmplitude hw s F32.c101 =
        { status := Status.exception EX_ILLEGAL_ARGUMENT, ret := none, state := s } := by
  have h0 : mapFind s.vibStrengths EffectStrength.LIGHT = some 64 := by rw [hT]; decide
  have h1 : mapFind s.vibStrengths EffectStrength.MEDIUM = some 96 := by rw [hT]; decide
  have h2 : mapFind s.vibStrengths EffectStrength.STRONG = some 128 := by rw [hT]; decide
  have light : ∀ x : F32, F32.gt x F32.zero = true → F32.le x F32.c033 = true →
      setAmplitude hw s x = strengthOutcome hw s EffectStrength.LIGHT 64 := by
    intro x hg hl
    simp only [setAmplitude, hg, hl, Bool.and_self, if_true]
    exact CHECK_OK_setStrength hw s _ _ h0
  have medium : ∀ x : F32, F32.gt x F32.c033 = true → F32.le x F32.c066 = true →
      setAmplitude hw s x = strengthOutcome hw s EffectStrength.MEDIUM 96 := by
    intro x hg hl
    have hn : F32.le x F32.c033 = false := by
      simp only [F32.gt, F32.lt, F32.le, key_c033, Bool.and_eq_true, Bool.not_eq_true',
        decide_eq_true_eq] at hg ⊢
      simp [F32.le, key_c033, hg.1.1, hg.1.2]
      omega
    simp only [setAmplitude, hg, hl, hn, Bool.and_self, Bool.and_false, if_true,
      Bool.false_eq_true, if_false]
    exact CHECK_OK_setStrength hw s _ _ h1
  have strong : ∀ x : F32, F32.gt x F32.c066 = true → F32.le x F32.one = true →
      setAmplitude hw s x = strengthOutcome hw s EffectStrength.STRONG 128 := by
    intro x hg hl
    have hn1 : F32.le x F32.c033 = false := by
      simp only [F32.gt, F32.lt, key_c066, Bool.and_eq_true, Bool.not_eq_true',
        decide_eq_true_eq] at hg
      simp [F32.le, key_c033, hg.1.1, hg.1.2]
      omega
    have hn2 : F32.le x F32.c066 = false := by
      simp only [F32.gt, F32.lt, key_c066, Bool.and_eq_true, Bool.not_eq_true',
        decide_eq_true_eq] at hg
      simp [F32.le, key_c066, hg.1.1, hg.1.2]
      omega
    simp only [setAmplitude, hg, hl, hn1, hn2, Bool.and_self, Bool.and_false, if_true,
      Bool.false_eq_true, if_false]
    exact CHECK_OK_setStrength hw s _ _ h2
  have illegal : ∀ x : F32, (F32.le x F32.zero = true ∨ F32.gt x F32.one = true ∨
      x.isNaN = true) →
      setAmplitude hw s x =
        { status := Status.exception EX_ILLEGAL_ARGUMENT, ret := none, state := s } := by
    intro x h
    have c1 : (F32.gt x F32.zero && F32.le x F32.c033) = false := by
      rcases h with h | h | h
      · simp only [F32.le, key_zero, Bool.and_eq_true, Bool.not_eq_true',
          decide_eq_true_eq] at h
        simp [F32.gt, F32.lt, key_zero, h.1.1, h.1.2]
        intro h3
        omega
      · simp only [F32.gt, F32.lt, key_one, Bool.and_eq_true, Bool.not_eq_true',
          decide_eq_true_eq] at h
        simp [F32.gt, F32.lt, F32.le, key_zero, key_c033, h.1.1, h.1.2]
        intro h3
        omega
      · simp [F32.gt, F32.lt, F32.le, h]
    have c2 : (F32.gt x F32.c033 && F32.le x F32.c066) = false := by
      rcases h with h | h | h
      · simp only [F32.le, key_zero, Bool.and_eq_true, Bool.not_eq_true',
          decide_eq_true_eq] at h
        simp [F32.gt, F32.lt, F32.le, key_c033, key_c066, h.1.1, h.1.2]
        intro h3
        omega
      · simp only [F32.gt, F32.lt, key_one, Bool.and_eq_true, Bool.not_eq_true',
          decide_eq_true_eq] at h
        simp [F32.gt, F32.lt, F32.le, key_c033, key_c066, h.1.1, h.1.2]
        intro h3
        omega
      · simp [F32.gt, F32.lt, F32.le, h]
    have c3 : (F32.gt x F32.c066 && F32.le x F32.one) = false := by
      rcases h with h | h | h
      · simp only [F32.le, key_zero, Bool.and_eq_true, Bool.not_eq_true',
          decide_eq_true_eq] at h
        simp [F32.gt, F32.lt, F32.le, key_c066, key_one, h.1.1, h.1.2]
        intro h3
        omega
      · simp only [F32.gt, F32.lt, key_one, Bool.and_eq_true, Bool.not_eq_true',
          decide_eq_true_eq] at h
        simp [F32.gt, F32.lt, F32.le, key_c066, key_one, h.1.1, h.1.2]
        intro h3
        omega
      · simp [F32.gt, F32.lt, F32.le, h]
    simp only [setAmplitude, c1, c2, c3, Bool.false_eq_true, if_false]
  exact ⟨light a, medium a, strong a, illegal a,
    light _ (by decide) (by decide), medium _ (by decide) (by decide),
    strong _ (by decide) (by decide), illegal _ (Or.inl (by decide)),
    illegal _ (Or.inr (Or.inl (by decide)))⟩

/-- Witness for C3: the float literal `0.66f` lies in the `MEDIUM` band. -/
theorem setAmplitude_bands_witness :
    F32.gt F32.c066 F32.c033 = true ∧ F32.le F32.c066 F32.c066 = true ∧
      setAmplitude okPort State.init F32.c066 =
        strengthOutcome okPort State.init EffectStrength.MEDIUM 96 :=
  ⟨by decide, by decide,
    (setAmplitude_bands okPort State.init F32.c066 rfl).2.1 (by decide) (by decide)⟩

/-! ## The float order -/

theorem scaled_lt_of_mag_lt (a b : F32) (h : a.mag < b.mag) : a.scaled < b.scaled := by
  have hma := a.mantissa.isLt
  have hmb := b.mantissa.isLt
  simp only [F32.mag] at h
  by_cases he : a.exponent.val = b.exponent.val
  · have hm : a.mantissa.val < b.mantissa.val := by omega
    simp only [F32.scaled, he]
    split_ifs
    · exact hm
    · exact Nat.mul_lt_mul_of_pos_right (by omega) (Nat.two_pow_pos _)
  · have hlt : a.exponent.val < b.exponent.val := by omega
    have hb1 : b.exponent.val ≠ 0 := by omega
    have upper : a.scaled < 2 ^ (a.exponent.val + 23) := by
      simp only [F32.scaled]
      split_ifs with h0
      · rw [h0]; simp [hma]
      · have : a.exponent.val + 23 = 24 + (a.exponent.val - 1) := by omega
        rw [this, pow_add]
        exact Nat.mul_lt_mul_of_pos_right (by omega) (Nat.two_pow_pos _)
    have mid : 2 ^ (a.exponent.val + 23) ≤ 2 ^ (b.exponent.val + 22) :=
      Nat.pow_le_pow_right (by norm_num) (by omega)
    have lower : 2 ^ (b.exponent.val + 22) ≤ b.scaled := by
      simp only [F32.scaled, hb1, if_false]
      have : b.exponent.val + 22 = 23 + (b.exponent.val - 1) := by omega
      rw [this, pow_add]
      exact Nat.mul_le_mul_right _ (by omega)
    omega

theorem scaled_lt_iff (a b : F32) : a.scaled < b.scaled ↔ a.mag < b.mag := by
  constructor
  · intro h
    by_contra hn
    rcases Nat.lt_or_ge b.mag a.mag with h1 | h1
    · have := scaled_lt_of_mag_lt b a h1
      omega
    · have heq : a.mag = b.mag := by omega
      have : a.scaled = b.scaled := by
        simp only [F32.mag] at heq
        have hma := a.mantissa.isLt
        have hmb := b.mantissa.isLt
        have he : a.exponent.val = b.exponent.val := by omega
        have hm : a.mantissa.val = b.mantissa.val := by omega
        simp [F32.scaled, he, hm]
      omega
  · exact scaled_lt_of_mag_lt a b

theorem scaled_eq_zero_iff (a : F32) : a.scaled = 0 ↔ a.mag = 0 := by
  have h := scaled_lt_iff F32.zero a
  have h0 : F32.zero.scaled = 0 := by decide
  have h1 : F32.zero.mag = 0 := by decide
  rw [h0, h1] at h
  omega

theorem toRat_eq (x : F32) :
    x.toRat = ((if x.sign then -(x.scaled : Int) else (x.scaled : Int) : Int) : ℚ) / 2 ^ 149 := by
  cases hs : x.sign <;> simp [F32.toRat, hs, neg_div]

theorem key_eq (x : F32) :
    x.key = if x.sign then -(x.mag : Int) else (x.mag : Int) := by
  cases hs : x.sign <;> simp [F32.key, F32.mag, hs]

/-- On values that are not NaN the float comparisons `<` and `<=` of the model are the
comparisons of the numbers denoted (an infinity being read as `2 ^ 128`, above every finite
value). -/
theorem float_order (a b : F32) (ha : a.isNaN = false) (hb : b.isNaN = false) :
    (F32.lt a b = true ↔ a.toRat < b.toRat) ∧ (F32.le a b = true ↔ a.toRat ≤ b.toRat) := by
  have hD : (0 : ℚ) < 2 ^ 149 := by positivity
  have e1 := scaled_lt_iff a b
  have e2 := scaled_lt_iff b a
  have z1 := scaled_eq_zero_iff a
  have z2 := scaled_eq_zero_iff b
  rw [toRat_eq a, toRat_eq b, div_lt_div_iff_of_pos_right hD, div_le_div_iff_of_pos_right hD, Int.cast_lt,
    Int.cast_le]
  simp only [F32.lt, F32.le, ha, hb, key_eq, Bool.not_false, Bool.true_and, decide_eq_true_eq]
  cases a.sign <;> cases b.sign <;> simp only [if_true, if_false, Bool.false_eq_true] <;>
    constructor <;> constructor <;> intro h <;> omega

end Vibrator
